import Mathlib

/-!
Shallow embedding of the twin import / spawn / chat lifecycle implemented in
`src/minecraft-mod/src/main/kotlin/com/digitaltwins/TwinCommands.kt`.

Strings are modelled by Lean `String`; the Kotlin `String` operations used by
the source (`startsWith`, `contains`, `substring(1)`, `replace(old, new)`)
are re-implemented below on the character list so that everything reduces in
the kernel. Nullable Kotlin values become `Option`. The mutable world
(player chat window, `TwinStorage`, the `spawnedEntities` concurrent map,
entities spawned into the world, audio playback) is collected into one
explicit state record `ModState`; each command handler is a state
transformer. Network calls (`TwinAPI.downloadTwin`, `TwinAPI.sendMessage`)
are passed in as explicit result functions, so one handler application
models the whole round trip of a single command (request, async completion
marshalled back to the main thread).
-/

/-- Kotlin `s.startsWith(pre)` on the character-list view of a string. -/
def strStartsWith (s pre : String) : Bool :=
  pre.data.isPrefixOf s.data

/-- Kotlin `s.contains(c)` for a one-character needle. -/
def strContainsChar (s : String) (c : Char) : Bool :=
  s.data.contains c

/-- Kotlin `s.substring(n)`: drop the first `n` characters. -/
def strDrop (s : String) (n : Nat) : String :=
  String.mk (s.data.drop n)

/-- Kotlin `s.endsWith(suf)` (used only by the spec-side definitions). -/
def strEndsWith (s suf : String) : Bool :=
  suf.data.isSuffixOf s.data

/-- Drop the last `n` characters of a string (spec-side helper). -/
def strDropRight (s : String) (n : Nat) : String :=
  String.mk (s.data.take (s.data.length - n))

/-- Fuel-driven worker for `kotlinReplace`: scan left to right, replacing
non-overlapping occurrences of `pat` by `rep`. `fuel` bounds the number of
scan steps; `s.length` steps always suffice for a non-empty pattern. -/
def replaceAux (pat rep : List Char) : Nat → List Char → List Char
  | 0, s => s
  | Nat.succ n, s =>
    match s with
    | [] => []
    | c :: rest =>
      if pat.isPrefixOf s then rep ++ replaceAux pat rep n (s.drop pat.length)
      else c :: replaceAux pat rep n rest

/-- Kotlin `s.replace(pat, rep)`: replace every non-overlapping occurrence of
`pat` in `s` by `rep`, scanning left to right. -/
def kotlinReplace (s pat rep : String) : String :=
  if pat.data.isEmpty then s
  else String.mk (replaceAux pat.data rep.data s.data.length s.data)

/-- Kotlin string interpolation of a nullable string renders `null`. -/
def kotlinStr : Option String → String
  | none => "null"
  | some s => s

/-- Kotlin `String?.isNullOrEmpty()`. -/
def isNullOrEmpty : Option String → Bool
  | none => true
  | some s => s.data.isEmpty

/-- Integer block position of a player (`player.blockPos`). -/
structure BlockPos where
  x : Int
  y : Int
  z : Int
deriving DecidableEq

/-- The requesting player: only the attributes the handlers read. -/
structure Player where
  blockPos : BlockPos
  yaw : ℚ
deriving DecidableEq

/-- A twin profile as stored by `TwinStorage` (fields read by the handlers:
`name`, `display_name`, `twin_id`, `api_endpoint`, `minecraft_skin_url`,
`minecraft_username`). -/
structure TwinData where
  name : String
  display_name : String
  twin_id : String
  api_endpoint : String
  minecraft_skin_url : Option String
  minecraft_username : Option String
deriving DecidableEq

/-- A `TwinEntity` materialized in the world: the twin name set by
`setTwinData`, the position/angles set by `refreshPositionAndAngles`
(doubles modelled as rationals, which represent `x + 0.5` exactly), and the
`isAlive` liveness flag. -/
structure TwinEntity where
  twinName : String
  x : ℚ
  y : ℚ
  z : ℚ
  yaw : ℚ
  pitch : ℚ
  isAlive : Bool
deriving DecidableEq

/-- Reply of `TwinAPI.sendMessage`: text plus optional audio locator. -/
structure ChatResponse where
  text : String
  audioUrl : Option String
deriving DecidableEq

/-- The observable state a command execution touches: the `TwinStorage`
directory, the `spawnedEntities` registry (association list with unique
keys, modelling the `ConcurrentHashMap`), the chat messages sent to the
player in order, the requests handed to `TwinAPI.sendMessage`, the URLs
handed to `TwinAudioPlayer.playAudioFromUrl`, the entities passed to
`world.spawnEntity`, and the entities on which `discard()` was called. -/
structure ModState where
  storage : List TwinData
  spawnedEntities : List (String × TwinEntity)
  messages : List String
  chatRequests : List (String × String × String)
  audioPlayed : List String
  worldSpawns : List TwinEntity
  discarded : List TwinEntity
deriving DecidableEq

/-- Message `§e⏳ Downloading twin data...`. -/
def downloadingMsg : String := "§e⏳ Downloading twin data..."

/-- Message `§a✓ Loaded twin: <displayName>`. -/
def loadedMsg (d : String) : String := "§a✓ Loaded twin: " ++ d

/-- Message `§7   Minecraft skin: <username>`. -/
def skinMsg (u : String) : String := "§7   Minecraft skin: " ++ u

/-- Message `§c✗ Failed to import twin: <error>`. -/
def importFailedMsg (e : String) : String := "§c✗ Failed to import twin: " ++ e

/-- Message shown by `/twinlist` when the directory is empty. -/
def noTwinsMsg : String := "§eNo twins imported. Use /twinimport <url>"

/-- Header line of `/twinlist`. -/
def listHeaderMsg : String := "§b=== Imported Twins ==="

/-- One `/twinlist` line: `§f- <displayName> <tag>`. -/
def listLineMsg (d tag : String) : String := "§f- " ++ d ++ " " ++ tag

/-- Rejection message of `/twinspawn` for an already-live name. -/
def alreadySpawnedMsg (name : String) : String :=
  "§e" ++ name ++ " is already spawned! Use /twinremove first."

/-- Not-found message of `/twinspawn`. -/
def spawnNotFoundMsg (name : String) : String :=
  "§cTwin not found: " ++ name ++ ". Use /twinimport first."

/-- Message shown when `ModEntities.TWIN_ENTITY.create(world)` returns null. -/
def createFailedMsg : String := "§cFailed to create twin entity"

/-- Success message of `/twinspawn`. -/
def spawnedMsg (d : String) : String := "§a✓ Spawned " ++ d ++ " at your location!"

/-- Chat-guidance message of `/twinspawn`. -/
def chatGuideMsg (n : String) : String :=
  "§7Right-click to chat, or use: /twin " ++ n ++ " <message>"

/-- Not-found message of `/twin` (chat). -/
def chatNotFoundMsg (name : String) : String := "§cTwin not found: " ++ name

/-- Thinking message of `/twin` (chat). -/
def thinkingMsg (d : String) : String := "§e" ++ d ++ " is thinking..."

/-- Reply line of `/twin` (chat): `§b[<displayName>]§f <text>`. -/
def replyMsg (d t : String) : String := "§b[" ++ d ++ "]§f " ++ t

/-- Message announcing audio playback. -/
def playingVoiceMsg : String := "§a🔊 Playing voice..."

/-- Failure message of `/twin` (chat). -/
def chatFailedMsg (e : String) : String := "§c✗ Failed to get response: " ++ e

/-- Connectivity hint appended to a chat failure. -/
def connectivityHintMsg : String := "§7Check your internet connection and API endpoint."

/-- Rejection message of `/twinremove` when the name is not live. -/
def notSpawnedMsg (name : String) : String := "§e" ++ name ++ " is not currently spawned."

/-- Success message of `/twinremove`. -/
def despawnedMsg (name : String) : String := "§a✓ Despawned " ++ name

/-- Registry read `spawnedEntities[name]`. -/
def regLookup : List (String × TwinEntity) → String → Option TwinEntity
  | [], _ => none
  | (k, v) :: rest, name => if k = name then some v else regLookup rest name

/-- Registry write `spawnedEntities[name] = e` (`ConcurrentHashMap.put`):
replace the value under an existing key, else add the key. -/
def regInsert : List (String × TwinEntity) → String → TwinEntity → List (String × TwinEntity)
  | [], name, e => [(name, e)]
  | (k, v) :: rest, name, e =>
    if k = name then (k, e) :: rest else (k, v) :: regInsert rest name e

/-- Registry delete `spawnedEntities.remove(name)`. -/
def regErase : List (String × TwinEntity) → String → List (String × TwinEntity)
  | [], _ => []
  | (k, v) :: rest, name => if k = name then rest else (k, v) :: regErase rest name

/-- Keys of the registry. -/
def regKeys (reg : List (String × TwinEntity)) : List String :=
  reg.map Prod.fst

/-- Source `isSpawned(name)`: `spawnedEntities[name]?.isAlive == true`. -/
def isSpawned (reg : List (String × TwinEntity)) (name : String) : Bool :=
  match regLookup reg name with
  | some e => e.isAlive
  | none => false

/-- Modelled from the spec: `TwinStorage.getTwinByName` is not under `src/`;
§4.2 specifies `getByName(name) -> profile | not-found`, here a lookup by
`name` in the stored profile list. -/
def getTwinByName (twins : List TwinData) (name : String) : Option TwinData :=
  twins.find? (fun t => t.name == name)

/-- Modelled from the spec: `TwinStorage.addTwin` is not under `src/`; §4.2
specifies `upsert(profile)` — insert or replace keyed by the profile's own
name. -/
def addTwin (twins : List TwinData) (t : TwinData) : List TwinData :=
  if twins.any (fun x => x.name == t.name) then
    twins.map (fun x => if x.name == t.name then t else x)
  else twins ++ [t]

/-- The canonical username-lookup URL built by `importTwin`. -/
def usernameLookupUrl (username : String) : String :=
  "https://replik.tech/api/minecraft/export/username/" ++ username

/-- URL normalization of `importTwin` (lines 104-121): `http` prefix →
as-is; `@` prefix → strip and build the username-lookup URL; no `/` and no
`.` → build the username-lookup URL; otherwise pass through. -/
def finalUrl (urlOrUsername : String) : String :=
  if strStartsWith urlOrUsername "http" then urlOrUsername
  else if strStartsWith urlOrUsername "@" then
    usernameLookupUrl (strDrop urlOrUsername 1)
  else if !(strContainsChar urlOrUsername '/') && !(strContainsChar urlOrUsername '.') then
    usernameLookupUrl urlOrUsername
  else urlOrUsername

/-- Audio URL resolution of `chatWithTwin` (lines 280-286): an `http`-prefixed
locator is used verbatim, otherwise it is appended to
`api_endpoint.replace("/api/speak", "")`. -/
def fullAudioUrl (endpoint audioUrl : String) : String :=
  if strStartsWith audioUrl "http" then audioUrl
  else kotlinReplace endpoint "/api/speak" "" ++ audioUrl

/-- Handler of `/twinimport` (`importTwin`), with the asynchronous download
modelled by the explicit result function `dl` and its completion applied to
the state. -/
def importTwin (playerQ : Option Player) (dl : String → Except String TwinData)
    (urlOrUsername : String) (s : ModState) : ModState :=
  match playerQ with
  | none => s
  | some _ =>
    let url := finalUrl urlOrUsername
    let s1 : ModState := { s with messages := s.messages ++ [downloadingMsg] }
    match dl url with
    | Except.ok twinData =>
      let s2 : ModState := { s1 with storage := addTwin s1.storage twinData,
                                     messages := s1.messages ++ [loadedMsg twinData.display_name] }
      if isNullOrEmpty twinData.minecraft_skin_url then s2
      else { s2 with messages := s2.messages ++ [skinMsg (kotlinStr twinData.minecraft_username)] }
    | Except.error e =>
      { s1 with messages := s1.messages ++ [importFailedMsg e] }

/-- Spawned/not-spawned tag rendered by `/twinlist`. -/
def spawnedTag (reg : List (String × TwinEntity)) (name : String) : String :=
  if isSpawned reg name then "§a(Spawned)" else "§7(Not spawned)"

/-- Handler of `/twinlist` (`listTwins`). -/
def listTwins (playerQ : Option Player) (s : ModState) : ModState :=
  match playerQ with
  | none => s
  | some _ =>
    let twins := s.storage
    if twins.isEmpty then { s with messages := s.messages ++ [noTwinsMsg] }
    else
      { s with messages := s.messages ++ [listHeaderMsg] ++
          twins.map (fun twin => listLineMsg twin.display_name (spawnedTag s.spawnedEntities twin.name)) }

/-- Messages appended to the chat by one `/twinlist` execution. -/
def listDelta (twins : List TwinData) (reg : List (String × TwinEntity)) : List String :=
  if twins.isEmpty then [noTwinsMsg]
  else listHeaderMsg :: twins.map (fun twin => listLineMsg twin.display_name (spawnedTag reg twin.name))

/-- The entity built by `spawnTwin` on success: twin name set by
`setTwinData`, placed at the requester's block position centered on the
block (`pos.x + 0.5`, `pos.y`, `pos.z + 0.5`), with the requester's yaw and
pitch `0`, alive. -/
def newEntity (name : String) (pl : Player) : TwinEntity :=
  { twinName := name,
    x := (pl.blockPos.x : ℚ) + 1/2,
    y := (pl.blockPos.y : ℚ),
    z := (pl.blockPos.z : ℚ) + 1/2,
    yaw := pl.yaw,
    pitch := 0,
    isAlive := true }

/-- Handler of `/twinspawn` (`spawnTwin`); `createOk` models whether
`ModEntities.TWIN_ENTITY.create(world)` returns an entity or null. -/
def spawnTwin (playerQ : Option Player) (createOk : Bool) (name : String) (s : ModState) : ModState :=
  match playerQ with
  | none => s
  | some pl =>
    if isSpawned s.spawnedEntities name then
      { s with messages := s.messages ++ [alreadySpawnedMsg name] }
    else
      match getTwinByName s.storage name with
      | none => { s with messages := s.messages ++ [spawnNotFoundMsg name] }
      | some twinData =>
        if createOk then
          let e := newEntity name pl
          { s with worldSpawns := s.worldSpawns ++ [e],
                   spawnedEntities := regInsert s.spawnedEntities name e,
                   messages := s.messages ++
                     [spawnedMsg twinData.display_name, chatGuideMsg twinData.name] }
        else
          { s with messages := s.messages ++ [createFailedMsg] }

/-- Handler of `/twin <name> <message>` (`chatWithTwin`), with the
asynchronous `TwinAPI.sendMessage` round trip modelled by the explicit
result function `send`. -/
def chatWithTwin (playerQ : Option Player)
    (send : String → String → String → Except String ChatResponse)
    (name text : String) (s : ModState) : ModState :=
  match playerQ with
  | none => s
  | some _ =>
    match getTwinByName s.storage name with
    | none => { s with messages := s.messages ++ [chatNotFoundMsg name] }
    | some twinData =>
      let s1 : ModState := { s with
        messages := s.messages ++ [thinkingMsg twinData.display_name],
        chatRequests := s.chatRequests ++ [(twinData.api_endpoint, twinData.twin_id, text)] }
      match send twinData.api_endpoint twinData.twin_id text with
      | Except.ok response =>
        let s2 : ModState := { s1 with
          messages := s1.messages ++ [replyMsg twinData.display_name response.text] }
        if isNullOrEmpty response.audioUrl then s2
        else
          { s2 with messages := s2.messages ++ [playingVoiceMsg],
                    audioPlayed := s2.audioPlayed ++
                      [fullAudioUrl twinData.api_endpoint (kotlinStr response.audioUrl)] }
      | Except.error e =>
        { s1 with messages := s1.messages ++ [chatFailedMsg e, connectivityHintMsg] }

/-- Spec-side notion of an absolute URL, for the refinement comparison of
the import normalization: a string carrying an explicit `http://` or
`https://` scheme. -/
def specIsAbsoluteUrl (s : String) : Bool :=
  strStartsWith s "http://" || strStartsWith s "https://"

/-- Spec-side normalization, following §4.1 word for word: (a) already an
absolute URL → use as-is; (b) prefixed with `@` → strip prefix, build the
canonical username-lookup URL; (c) no path separator and no dot → build the
canonical username-lookup URL; (d) otherwise pass through unchanged. Kept
separate from `finalUrl`, which is translated from the source, so the two
can be compared. -/
def specNormalize (locator : String) : String :=
  if specIsAbsoluteUrl locator then locator
  else if strStartsWith locator "@" then usernameLookupUrl (strDrop locator 1)
  else if !(strContainsChar locator '/') && !(strContainsChar locator '.') then
    usernameLookupUrl locator
  else locator

/-- Spec-side base-URL derivation for audio resolution, following the spec's
words: the endpoint with its known *trailing* chat-path segment
(`/api/speak`) stripped. -/
def specStripTrailing (endpoint : String) : String :=
  if strEndsWith endpoint "/api/speak" then strDropRight endpoint 10 else endpoint

/-- Spec-side audio URL resolution, for the refinement comparison with
`fullAudioUrl`: an absolute locator is used verbatim, a relative one is
appended to the trailing-stripped base. -/
def specAudioUrl (endpoint audioUrl : String) : String :=
  if specIsAbsoluteUrl audioUrl then audioUrl
  else specStripTrailing endpoint ++ audioUrl

/-- Position of one thread inside the critical section of `spawnTwin`: about
to run the `isSpawned` check (line 185), past the check and about to run the
registry write `spawnedEntities[name] = twinEntity` (line 226), finished
with success, or finished rejected with the already-spawned conflict. The
two steps are separate atomic actions because the source performs them as
two separate operations on the concurrent map, with no lock and no
`putIfAbsent`. -/
inductive SpPhase where
  | atCheck : SpPhase
  | atInsert : SpPhase
  | doneOk : SpPhase
  | doneConflict : SpPhase
deriving DecidableEq

/-- Shared registry plus the phase of two concurrent `spawnTwin name`
executions. -/
structure ConcState where
  reg : List (String × TwinEntity)
  t1 : SpPhase
  t2 : SpPhase
deriving DecidableEq

/-- One atomic step of one `spawnTwin name` execution against the shared
registry, as the source orders them: first the `isSpawned` read, then the
plain put. -/
def stepSpawn (name : String) (e : TwinEntity) (reg : List (String × TwinEntity)) :
    SpPhase → List (String × TwinEntity) × SpPhase
  | SpPhase.atCheck =>
    if isSpawned reg name then (reg, SpPhase.doneConflict) else (reg, SpPhase.atInsert)
  | SpPhase.atInsert => (regInsert reg name e, SpPhase.doneOk)
  | p => (reg, p)

/-- Run an interleaving of the two concurrent spawns: `true` schedules a
step of thread 1 (spawning entity `e1`), `false` a step of thread 2
(spawning entity `e2`). -/
def runSchedule (name : String) (e1 e2 : TwinEntity) : List Bool → ConcState → ConcState
  | [], cs => cs
  | pick :: rest, cs =>
    if pick then
      let r := stepSpawn name e1 cs.reg cs.t1
      runSchedule name e1 e2 rest { cs with reg := r.fst, t1 := r.snd }
    else
      let r := stepSpawn name e2 cs.reg cs.t2
      runSchedule name e1 e2 rest { cs with reg := r.fst, t2 := r.snd }

/-- Handler of `/twinremove` (`removeTwin`). -/
def removeTwin (playerQ : Option Player) (name : String) (s : ModState) : ModState :=
  match playerQ with
  | none => s
  | some _ =>
    if !(isSpawned s.spawnedEntities name) then
      { s with messages := s.messages ++ [notSpawnedMsg name] }
    else
      let s1 : ModState :=
        match regLookup s.spawnedEntities name with
        | some e => { s with discarded := s.discarded ++ [e],
                             spawnedEntities := regErase s.spawnedEntities name }
        | none => s
      { s1 with messages := s1.messages ++ [despawnedMsg name] }

/-- A concrete player at the origin, used by the concrete witnesses. -/
def playerZero : Player :=
  { blockPos := { x := 0, y := 0, z := 0 }, yaw := 0 }

/-- The empty state: nothing imported, nothing spawned, no chat history. -/
def emptyState : ModState :=
  { storage := [], spawnedEntities := [], messages := [], chatRequests := [],
    audioPlayed := [], worldSpawns := [], discarded := [] }

/-- A concrete stored profile named `maya`. -/
def mayaProfile : TwinData :=
  { name := "maya", display_name := "Maya", twin_id := "t1",
    api_endpoint := "https://replik.tech/api/speak",
    minecraft_skin_url := none, minecraft_username := none }

/-- A state whose directory holds exactly `mayaProfile`. -/
def mayaState : ModState := { emptyState with storage := [mayaProfile] }

/-- A profile whose endpoint contains the chat-path segment `/api/speak`
twice, the last occurrence trailing. -/
def audioProfile : TwinData :=
  { name := "maya", display_name := "Maya", twin_id := "t1",
    api_endpoint := "https://h/api/speak/api/speak",
    minecraft_skin_url := none, minecraft_username := none }

/-- A state whose directory holds exactly `audioProfile`. -/
def audioState : ModState := { emptyState with storage := [audioProfile] }

/-- A gateway reply carrying the relative audio locator `/c.mp3`. -/
def sendAudioClip : String → String → String → Except String ChatResponse :=
  fun _ _ _ => Except.ok { text := "hi", audioUrl := some "/c.mp3" }

/-- A download that always fails with the message `boom`. -/
def dlFail : String → Except String TwinData :=
  fun _ => Except.error "boom"

/-- A registry entry whose instance has self-terminated (liveness flag
false). -/
def staleEntity : TwinEntity :=
  { twinName := "maya", x := 0, y := 0, z := 0, yaw := 0, pitch := 0, isAlive := false }

/-- A state holding the `maya` profile and a stale registry entry for it. -/
def staleState : ModState :=
  { emptyState with storage := [mayaProfile],
                    spawnedEntities := [("maya", staleEntity)] }

/-- First concurrent spawn's entity in the race scenario. -/
def raceEntityA : TwinEntity :=
  { twinName := "maya", x := 0, y := 0, z := 0, yaw := 0, pitch := 0, isAlive := true }

/-- Second concurrent spawn's entity in the race scenario. -/
def raceEntityB : TwinEntity :=
  { twinName := "maya", x := 1, y := 0, z := 0, yaw := 0, pitch := 0, isAlive := true }

/-- A state holding the `maya` profile and a live registry entry for it. -/
def liveState : ModState :=
  { emptyState with storage := [mayaProfile],
                    spawnedEntities := [("maya", raceEntityA)] }

theorem regLookup_regInsert_self (reg : List (String × TwinEntity)) (k : String)
    (v : TwinEntity) : regLookup (regInsert reg k v) k = some v := by
  induction reg with
  | nil => simp [regInsert, regLookup]
  | cons p rest ih =>
    obtain ⟨a, b⟩ := p
    by_cases h : a = k <;> simp [regInsert, regLookup, h, ih]

theorem mem_regKeys_regInsert {reg : List (String × TwinEntity)} {k : String}
    {v : TwinEntity} {x : String} (hx : x ∈ regKeys (regInsert reg k v)) :
    x ∈ regKeys reg ∨ x = k := by
  induction reg with
  | nil => simpa [regInsert, regKeys] using hx
  | cons p rest ih =>
    obtain ⟨a, b⟩ := p
    by_cases h : a = k
    · subst h
      rcases (by simpa [regInsert, regKeys] using hx) with h1 | h1
      · exact Or.inr h1
      · refine Or.inl ?_
        simp only [regKeys, List.map_cons, List.mem_cons]
        exact Or.inr (by simpa [regKeys] using h1)
    · rcases (by simpa [regInsert, regKeys, h] using hx) with h1 | h1
      · exact Or.inl (by simp [regKeys, h1])
      · rcases ih (by simpa [regKeys] using h1) with h2 | h2
        · exact Or.inl (by simp [regKeys] at h2 ⊢; exact Or.inr h2)
        · exact Or.inr h2

theorem regKeys_nodup_regInsert {reg : List (String × TwinEntity)} (k : String)
    (v : TwinEntity) (h : (regKeys reg).Nodup) :
    (regKeys (regInsert reg k v)).Nodup := by
  induction reg with
  | nil => simp [regInsert, regKeys]
  | cons p rest ih =>
    obtain ⟨a, b⟩ := p
    simp only [regKeys, List.map_cons, List.nodup_cons] at h
    by_cases hk : a = k
    · simp only [regInsert, hk, if_pos rfl]
      simpa [regKeys, List.nodup_cons, hk] using h
    · simp only [regInsert, if_neg hk, regKeys, List.map_cons, List.nodup_cons]
      refine ⟨fun hmem => ?_, ih h.2⟩
      rcases mem_regKeys_regInsert (by simpa [regKeys] using hmem) with h1 | h1
      · exact h.1 (by simpa [regKeys] using h1)
      · exact hk h1

theorem regLookup_eq_none_of_not_mem {reg : List (String × TwinEntity)} {k : String}
    (h : k ∉ regKeys reg) : regLookup reg k = none := by
  induction reg with
  | nil => simp [regLookup]
  | cons p rest ih =>
    obtain ⟨a, b⟩ := p
    simp only [regKeys, List.map_cons, List.mem_cons, not_or] at h
    have ha : a ≠ k := fun e => h.1 e.symm
    simp [regLookup, ha, ih (by simpa [regKeys] using h.2)]

theorem regLookup_regErase_self {reg : List (String × TwinEntity)} {k : String}
    (h : (regKeys reg).Nodup) : regLookup (regErase reg k) k = none := by
  induction reg with
  | nil => simp [regErase, regLookup]
  | cons p rest ih =>
    obtain ⟨a, b⟩ := p
    simp only [regKeys, List.map_cons, List.nodup_cons] at h
    by_cases hk : a = k
    · subst hk
      simp only [regErase, if_pos rfl]
      exact regLookup_eq_none_of_not_mem h.1
    · simp [regErase, hk, regLookup, ih h.2]

/-- C10: a command whose source has no associated player returns immediately:
no notification is emitted and the directory, registry, world and audio
state are untouched, for each of the five handlers. -/
theorem no_player_commands_noop (dl : String → Except String TwinData)
    (send : String → String → String → Except String ChatResponse)
    (loc name text : String) (createOk : Bool) (s : ModState) :
    importTwin none dl loc s = s ∧ listTwins none s = s ∧
    spawnTwin none createOk name s = s ∧ chatWithTwin none send name text s = s ∧
    removeTwin none name s = s :=
  ⟨rfl, rfl, rfl, rfl, rfl⟩

/-- C1: a spawn request for a name that already has a live registry entry is
rejected with the already-spawned notification and nothing else changes; in
particular the existing registry entry is not overwritten. Moreover every
`spawnTwin` execution preserves key-uniqueness of the registry, so the
registry maps each name to at most one instance. -/
theorem spawn_rejected_when_live (pl : Player) (createOk : Bool) (name : String)
    (s : ModState) (h : isSpawned s.spawnedEntities name = true) :
    spawnTwin (some pl) createOk name s =
      { s with messages := s.messages ++ [alreadySpawnedMsg name] } ∧
    (spawnTwin (some pl) createOk name s).spawnedEntities = s.spawnedEntities ∧
    (∀ plQ createOk2 name2 s2, (regKeys (s2 : ModState).spawnedEntities).Nodup →
      (regKeys (spawnTwin plQ createOk2 name2 s2).spawnedEntities).Nodup) := by
  have h1 : spawnTwin (some pl) createOk name s =
      { s with messages := s.messages ++ [alreadySpawnedMsg name] } := by
    simp [spawnTwin, h]
  refine ⟨h1, by rw [h1], ?_⟩
  intro plQ createOk2 name2 s2 hn
  cases plQ with
  | none => exact hn
  | some pl2 =>
    by_cases hs : isSpawned s2.spawnedEntities name2
    · simpa [spawnTwin, hs] using hn
    · cases hg : getTwinByName s2.storage name2 with
      | none => simpa [spawnTwin, hs, hg] using hn
      | some td =>
        cases createOk2 with
        | false => simpa [spawnTwin, hs, hg] using hn
        | true =>
          simpa [spawnTwin, hs, hg] using regKeys_nodup_regInsert name2 (newEntity name2 pl2) hn

/-- C1 witness: concrete rejected re-spawn of `maya` while live. -/
theorem spawn_rejected_when_live_witness :
    spawnTwin (some playerZero) true "maya" liveState =
      { liveState with messages := liveState.messages ++ [alreadySpawnedMsg "maya"] } :=
  (spawn_rejected_when_live playerZero true "maya" liveState (by decide)).1

theorem listTwins_messages (pl : Player) (s : ModState) :
    listTwins (some pl) s =
      { s with messages := s.messages ++ listDelta s.storage s.spawnedEntities } := by
  by_cases h : s.storage.isEmpty <;> simp [listTwins, listDelta, h]

/-- C4: `/twin name text` fails with the twin-not-found notification exactly
when the directory has no profile under `name`; when a profile exists the
request always reaches the gateway (whether or not the name is spawned),
and the whole handler neither reads nor writes the registry: it commutes
with any replacement of the registry contents. -/
theorem chat_requires_directory_only (pl : Player)
    (send : String → String → String → Except String ChatResponse)
    (name text : String) (s : ModState) :
    (getTwinByName s.storage name = none →
      chatWithTwin (some pl) send name text s =
        { s with messages := s.messages ++ [chatNotFoundMsg name] }) ∧
    (∀ td, getTwinByName s.storage name = some td →
      (chatWithTwin (some pl) send name text s).chatRequests =
        s.chatRequests ++ [(td.api_endpoint, td.twin_id, text)]) ∧
    (∀ reg, chatWithTwin (some pl) send name text { s with spawnedEntities := reg } =
      { chatWithTwin (some pl) send name text s with spawnedEntities := reg }) := by
  refine ⟨?_, ?_, ?_⟩
  · intro h
    simp [chatWithTwin, h]
  · intro td h
    simp only [chatWithTwin, h]
    rcases hr : send td.api_endpoint td.twin_id text with e | r
    · simp [hr]
    · by_cases hau : isNullOrEmpty r.audioUrl = true <;> simp [hr, hau]
  · intro reg
    simp only [chatWithTwin]
    rcases hg : getTwinByName s.storage name with _ | td
    · simp [hg]
    · rcases hr : send td.api_endpoint td.twin_id text with e | r
      · simp [hg, hr]
      · by_cases hau : isNullOrEmpty r.audioUrl = true <;> simp [hg, hr, hau]

/-- C4 witness: chatting with the imported but unspawned `maya` records a
gateway request with the stored endpoint and twin id. -/
theorem chat_requires_directory_only_witness :
    (chatWithTwin (some playerZero) sendAudioClip "maya" "hi" mayaState).chatRequests =
      mayaState.chatRequests ++ [(mayaProfile.api_endpoint, mayaProfile.twin_id, "hi")] :=
  (chat_requires_directory_only playerZero sendAudioClip "maya" "hi" mayaState).2.1
    mayaProfile (by decide)

/-- C5: when the profile download fails, the import emits the in-progress
notification followed by exactly one failure notification carrying the
error message, the directory is unchanged, and a subsequent `/twinlist`
renders exactly the listing of the old directory — no new entry. -/
theorem failed_download_no_partial_state (pl : Player)
    (dl : String → Except String TwinData) (loc err : String) (s : ModState)
    (h : dl (finalUrl loc) = Except.error err) :
    importTwin (some pl) dl loc s =
      { s with messages := s.messages ++ [downloadingMsg, importFailedMsg err] } ∧
    (importTwin (some pl) dl loc s).storage = s.storage ∧
    (listTwins (some pl) (importTwin (some pl) dl loc s)).messages =
      (importTwin (some pl) dl loc s).messages ++ listDelta s.storage s.spawnedEntities := by
  have h1 : importTwin (some pl) dl loc s =
      { s with messages := s.messages ++ [downloadingMsg, importFailedMsg err] } := by
    simp [importTwin, h]
  refine ⟨h1, by rw [h1], ?_⟩
  rw [h1, listTwins_messages]

/-- C5 witness: a concrete failed download of locator `x` into the empty
state. -/
theorem failed_download_no_partial_state_witness :
    importTwin (some playerZero) dlFail "x" emptyState =
      { emptyState with
          messages := emptyState.messages ++ [downloadingMsg, importFailedMsg "boom"] } :=
  (failed_download_no_partial_state playerZero dlFail "x" "boom" emptyState rfl).1

theorem createFailed_ne_spawnNotFound (n : String) :
    createFailedMsg ≠ spawnNotFoundMsg n := by
  intro h
  have hlen := congrArg (fun t => t.data.length) h
  simp only [createFailedMsg, spawnNotFoundMsg, String.data_append,
    List.length_append] at hlen
  have e1 : "§cFailed to create twin entity".data.length = 30 := by decide
  have e2 : "§cTwin not found: ".data.length = 18 := by decide
  have e3 : ". Use /twinimport first.".data.length = 24 := by decide
  rw [e1, e2, e3] at hlen
  omega

/-- C6: `spawnTwin` checks its errors in order — already-spawned first, then
profile-not-found, then entity-construction failure (a message distinct from
not-found, writing nothing) — and on success registers an instance at the
requester's block-centered position with the requester's yaw, keyed by the
name, reporting success plus chat guidance. -/
theorem spawn_check_order (pl : Player) (createOk : Bool) (name : String)
    (s : ModState) (td : TwinData) :
    (isSpawned s.spawnedEntities name = true →
      spawnTwin (some pl) createOk name s =
        { s with messages := s.messages ++ [alreadySpawnedMsg name] }) ∧
    (isSpawned s.spawnedEntities name = false →
      getTwinByName s.storage name = none →
      spawnTwin (some pl) createOk name s =
        { s with messages := s.messages ++ [spawnNotFoundMsg name] }) ∧
    (isSpawned s.spawnedEntities name = false →
      getTwinByName s.storage name = some td → createOk = false →
      spawnTwin (some pl) createOk name s =
        { s with messages := s.messages ++ [createFailedMsg] } ∧
      createFailedMsg ≠ spawnNotFoundMsg name) ∧
    (isSpawned s.spawnedEntities name = false →
      getTwinByName s.storage name = some td → createOk = true →
      spawnTwin (some pl) createOk name s =
        { s with
            worldSpawns := s.worldSpawns ++ [newEntity name pl],
            spawnedEntities := regInsert s.spawnedEntities name (newEntity name pl),
            messages := s.messages ++
              [spawnedMsg td.display_name, chatGuideMsg td.name] } ∧
      regLookup (spawnTwin (some pl) createOk name s).spawnedEntities name =
        some (newEntity name pl)) := by
  refine ⟨?_, ?_, ?_, ?_⟩
  · intro h
    simp [spawnTwin, h]
  · intro h hg
    simp [spawnTwin, h, hg]
  · intro h hg hc
    subst hc
    exact ⟨by simp [spawnTwin, h, hg], createFailed_ne_spawnNotFound name⟩
  · intro h hg hc
    subst hc
    have h1 : spawnTwin (some pl) true name s =
        { s with
            worldSpawns := s.worldSpawns ++ [newEntity name pl],
            spawnedEntities := regInsert s.spawnedEntities name (newEntity name pl),
            messages := s.messages ++
              [spawnedMsg td.display_name, chatGuideMsg td.name] } := by
      simp [spawnTwin, h, hg]
    exact ⟨h1, by rw [h1]; exact regLookup_regInsert_self _ _ _⟩

/-- C6 witness: a concrete successful spawn of `maya` from the empty
registry lands the new live entity under the key `maya`. -/
theorem spawn_check_order_witness :
    spawnTwin (some playerZero) true "maya" mayaState =
      { mayaState with
          worldSpawns := mayaState.worldSpawns ++ [newEntity "maya" playerZero],
          spawnedEntities :=
            regInsert mayaState.spawnedEntities "maya" (newEntity "maya" playerZero),
          messages := mayaState.messages ++
            [spawnedMsg mayaProfile.display_name, chatGuideMsg mayaProfile.name] } :=
  ((spawn_check_order playerZero true "maya" mayaState mayaProfile).2.2.2
    (by decide) (by decide) rfl).1

/-- C7: `/twinremove name` with no live instance yields the not-currently-
spawned error and changes nothing else; after a successful spawn it
succeeds — the instance is discarded, the registry entry deleted — and a
subsequent `isSpawned name` returns false. -/
theorem remove_lifecycle (pl : Player) (name : String) (s : ModState) (td : TwinData) :
    (isSpawned s.spawnedEntities name = false →
      removeTwin (some pl) name s =
        { s with messages := s.messages ++ [notSpawnedMsg name] }) ∧
    ((regKeys s.spawnedEntities).Nodup →
      isSpawned s.spawnedEntities name = false →
      getTwinByName s.storage name = some td →
      removeTwin (some pl) name (spawnTwin (some pl) true name s) =
        { s with
            worldSpawns := s.worldSpawns ++ [newEntity name pl],
            discarded := s.discarded ++ [newEntity name pl],
            spawnedEntities :=
              regErase (regInsert s.spawnedEntities name (newEntity name pl)) name,
            messages := s.messages ++
              [spawnedMsg td.display_name, chatGuideMsg td.name, despawnedMsg name] } ∧
      isSpawned (removeTwin (some pl) name
        (spawnTwin (some pl) true name s)).spawnedEntities name = false ∧
      regLookup (removeTwin (some pl) name
        (spawnTwin (some pl) true name s)).spawnedEntities name = none) := by
  refine ⟨?_, ?_⟩
  · intro h
    simp [removeTwin, h]
  · intro hn h hg
    have hspawn : spawnTwin (some pl) true name s =
        { s with
            worldSpawns := s.worldSpawns ++ [newEntity name pl],
            spawnedEntities := regInsert s.spawnedEntities name (newEntity name pl),
            messages := s.messages ++
              [spawnedMsg td.display_name, chatGuideMsg td.name] } := by
      simp [spawnTwin, h, hg]
    have hlook : regLookup (regInsert s.spawnedEntities name (newEntity name pl)) name =
        some (newEntity name pl) := regLookup_regInsert_self _ _ _
    have hlive : isSpawned (regInsert s.spawnedEntities name (newEntity name pl)) name = true := by
      unfold isSpawned
      rw [hlook]
      rfl
    have hrem : removeTwin (some pl) name (spawnTwin (some pl) true name s) =
        { s with
            worldSpawns := s.worldSpawns ++ [newEntity name pl],
            discarded := s.discarded ++ [newEntity name pl],
            spawnedEntities :=
              regErase (regInsert s.spawnedEntities name (newEntity name pl)) name,
            messages := s.messages ++
              [spawnedMsg td.display_name, chatGuideMsg td.name, despawnedMsg name] } := by
      rw [hspawn]
      simp [removeTwin, hlive, hlook]
    have hnone : regLookup
        (regErase (regInsert s.spawnedEntities name (newEntity name pl)) name) name = none :=
      regLookup_regErase_self (regKeys_nodup_regInsert name (newEntity name pl) hn)
    refine ⟨hrem, ?_, ?_⟩
    · rw [hrem]
      simp [isSpawned, hnone]
    · rw [hrem]
      exact hnone

/-- C7 witness: spawn `maya` then remove it; the name is no longer live. -/
theorem remove_lifecycle_witness :
    isSpawned (removeTwin (some playerZero) "maya"
      (spawnTwin (some playerZero) true "maya" mayaState)).spawnedEntities "maya" = false :=
  ((remove_lifecycle playerZero "maya" mayaState mayaProfile).2
    (by decide) (by decide) (by decide)).2.1

/-- C9: a stale registry entry (present but with liveness flag false) makes
`isSpawned` false; `/twinremove` then reports not-currently-spawned and
leaves the stale entry in place; the read-only queries (`/twinlist`,
`/twin` chat) never purge it; and a subsequent spawn proceeds and
overwrites the stale entry with the new live instance. -/
theorem stale_entry_behavior (pl : Player) (name : String) (e : TwinEntity)
    (td : TwinData) (s : ModState)
    (hstale : regLookup s.spawnedEntities name = some e)
    (hdead : e.isAlive = false) :
    isSpawned s.spawnedEntities name = false ∧
    removeTwin (some pl) name s =
      { s with messages := s.messages ++ [notSpawnedMsg name] } ∧
    (listTwins (some pl) s).spawnedEntities = s.spawnedEntities ∧
    (∀ send text, (chatWithTwin (some pl) send name text s).spawnedEntities =
      s.spawnedEntities) ∧
    (getTwinByName s.storage name = some td →
      regLookup (spawnTwin (some pl) true name s).spawnedEntities name =
        some (newEntity name pl)) := by
  have hns : isSpawned s.spawnedEntities name = false := by
    simp [isSpawned, hstale, hdead]
  refine ⟨hns, by simp [removeTwin, hns], ?_, ?_, ?_⟩
  · rw [listTwins_messages]
  · intro send text
    rcases hg : getTwinByName s.storage name with _ | td2
    · simp [chatWithTwin, hg]
    · rcases hr : send td2.api_endpoint td2.twin_id text with er | r
      · simp [chatWithTwin, hg, hr]
      · by_cases hau : isNullOrEmpty r.audioUrl = true <;>
          simp [chatWithTwin, hg, hr, hau]
  · intro hg
    simp [spawnTwin, hns, hg, regLookup_regInsert_self]

/-- C9 witness: a concrete stale `maya` entry is overwritten by a new spawn. -/
theorem stale_entry_behavior_witness :
    regLookup (spawnTwin (some playerZero) true "maya" staleState).spawnedEntities "maya" =
      some (newEntity "maya" playerZero) :=
  (stale_entry_behavior playerZero "maya" staleEntity mayaProfile staleState
    rfl rfl).2.2.2.2 rfl

/-- C2 counterexample: the claim's rule (a) keys on being an absolute URL,
but the source keys on the prefix `http`. For the locator `httpx` — not an
absolute URL, no `@`, no `/`, no `.` — the claimed precedence yields the
canonical username-lookup URL, while the code passes it through as-is. -/
theorem normalize_precedence_counterexample :
    finalUrl "httpx" = "httpx" ∧
    specNormalize "httpx" = usernameLookupUrl "httpx" ∧
    finalUrl "httpx" ≠ specNormalize "httpx" := by
  refine ⟨by decide, by decide, ?_⟩
  intro h
  exact absurd h (by decide)

/-- C2 amended: `importTwin` normalizes its locator by this precedence — a
string prefixed with `http` is used as-is; otherwise an `@`-prefixed string
is stripped and built into the canonical username-lookup URL; otherwise a
string with no `/` and no `.` is built whole into that URL; anything else
passes through unchanged. In particular `alex`, `@alex` and the full
canonical username-lookup URL for `alex` all resolve to the same fetch
URL. -/
theorem normalize_precedence (loc : String) :
    (strStartsWith loc "http" = true → finalUrl loc = loc) ∧
    (strStartsWith loc "http" = false → strStartsWith loc "@" = true →
      finalUrl loc = usernameLookupUrl (strDrop loc 1)) ∧
    (strStartsWith loc "http" = false → strStartsWith loc "@" = false →
      strContainsChar loc '/' = false → strContainsChar loc '.' = false →
      finalUrl loc = usernameLookupUrl loc) ∧
    (strStartsWith loc "http" = false → strStartsWith loc "@" = false →
      (strContainsChar loc '/' = true ∨ strContainsChar loc '.' = true) →
      finalUrl loc = loc) ∧
    (finalUrl "alex" = finalUrl "@alex" ∧
      finalUrl "@alex" =
        finalUrl "https://replik.tech/api/minecraft/export/username/alex") := by
  refine ⟨?_, ?_, ?_, ?_, by decide, by decide⟩
  · intro h
    simp [finalUrl, h]
  · intro h1 h2
    simp [finalUrl, h1, h2]
  · intro h1 h2 h3 h4
    simp [finalUrl, h1, h2, h3, h4]
  · intro h1 h2 h3
    rcases h3 with h3 | h3 <;> simp [finalUrl, h1, h2, h3]

/-- C2 witness: the amended precedence evaluated at `@alex`. -/
theorem normalize_precedence_witness :
    finalUrl "@alex" = usernameLookupUrl (strDrop "@alex" 1) :=
  (normalize_precedence "@alex").2.1 (by decide) (by decide)

/-- C3 counterexample: the claim derives the playback base by stripping the
known *trailing* chat-path segment, but the source removes *every*
occurrence of `/api/speak`. On a profile whose endpoint is
`https://h/api/speak/api/speak`, a reply with the relative locator `/c.mp3`
is played from `https://h/c.mp3`, while the claimed resolution yields
`https://h/api/speak/c.mp3`. -/
theorem audio_resolution_counterexample :
    (chatWithTwin (some playerZero) sendAudioClip "maya" "hi" audioState).audioPlayed =
      [fullAudioUrl "https://h/api/speak/api/speak" "/c.mp3"] ∧
    fullAudioUrl "https://h/api/speak/api/speak" "/c.mp3" = "https://h/c.mp3" ∧
    specAudioUrl "https://h/api/speak/api/speak" "/c.mp3" = "https://h/api/speak/c.mp3" ∧
    fullAudioUrl "https://h/api/speak/api/speak" "/c.mp3" ≠
      specAudioUrl "https://h/api/speak/api/speak" "/c.mp3" := by
  refine ⟨by decide, by decide, by decide, ?_⟩
  intro h
  exact absurd h (by decide)

/-- C3 amended: for a reply with a non-empty audio locator, an
`http`-prefixed locator is played verbatim; a relative locator is played
from `base + locator`, where `base` is the profile's `apiEndpoint` with
*every* occurrence of `/api/speak` removed (the source's replace-all, which
equals suffix-stripping whenever the endpoint contains the segment exactly
once, at the end). -/
theorem audio_resolution (pl : Player)
    (send : String → String → String → Except String ChatResponse)
    (name text : String) (s : ModState) (td : TwinData) (r : ChatResponse)
    (au : String)
    (hfound : getTwinByName s.storage name = some td)
    (hsend : send td.api_endpoint td.twin_id text = Except.ok r)
    (hau : r.audioUrl = some au) (hne : au.data.isEmpty = false) :
    (chatWithTwin (some pl) send name text s).audioPlayed =
      s.audioPlayed ++ [fullAudioUrl td.api_endpoint au] ∧
    (strStartsWith au "http" = true → fullAudioUrl td.api_endpoint au = au) ∧
    (strStartsWith au "http" = false →
      fullAudioUrl td.api_endpoint au =
        kotlinReplace td.api_endpoint "/api/speak" "" ++ au) := by
  refine ⟨?_, ?_, ?_⟩
  · simp [chatWithTwin, hfound, hsend, isNullOrEmpty, hau, hne, kotlinStr]
  · intro h
    simp [fullAudioUrl, h]
  · intro h
    simp [fullAudioUrl, h]

/-- C3 witness: the amended resolution on the concrete relative locator
`/c.mp3`. -/
theorem audio_resolution_witness :
    (chatWithTwin (some playerZero) sendAudioClip "maya" "hi" audioState).audioPlayed =
      audioState.audioPlayed ++ [fullAudioUrl audioProfile.api_endpoint "/c.mp3"] :=
  (audio_resolution playerZero sendAudioClip "maya" "hi" audioState audioProfile
    { text := "hi", audioUrl := some "/c.mp3" } "/c.mp3" rfl rfl rfl rfl).1

/-- C8: the source is check-then-act — the `isSpawned` read (line 185) and
the plain put `spawnedEntities[name] = twinEntity` (line 226) are two
separate operations on the concurrent map, with no `putIfAbsent`. Under the
interleaving check1, check2, insert1, insert2 starting from an empty
registry, both concurrent spawns of `maya` pass the check and both finish
successfully, the second put overwriting the first entry — there is no
serialization by an atomic insert-if-absent and no ConflictError for either
call. -/
theorem spawn_race_both_succeed :
    (runSchedule "maya" raceEntityA raceEntityB [true, false, true, false]
        { reg := [], t1 := SpPhase.atCheck, t2 := SpPhase.atCheck }).t1 =
      SpPhase.doneOk ∧
    (runSchedule "maya" raceEntityA raceEntityB [true, false, true, false]
        { reg := [], t1 := SpPhase.atCheck, t2 := SpPhase.atCheck }).t2 =
      SpPhase.doneOk ∧
    regLookup (runSchedule "maya" raceEntityA raceEntityB [true, false, true, false]
        { reg := [], t1 := SpPhase.atCheck, t2 := SpPhase.atCheck }).reg "maya" =
      some raceEntityB := by
  refine ⟨rfl, rfl, rfl⟩
